import Mathlib

/-!
# Verification of the image-server core

Shallow embedding of the unique-identifier allocation, metadata and
path-handling logic of the image server.

`src/index.js` contains two concatenated variants of the server:

* variant 1 — the first copy (allocation loop without extension check,
  `/api/delete` that fires the registry delete before checking the file).
* variant 2 — the second copy (extension allow-list, cleanup `DELETE`
  inside the allocation loop, `split('/').pop()` sanitisation in
  `/api/delete`, `Bearer` token authentication).

The relational registry (table `images(fn TEXT PRIMARY KEY, source TEXT)`)
is embedded as an association list from filename to the nullable `source`
column.  Database queries are modelled by their row-level effect; an
infrastructure failure (registry unreachable) is modelled by a per-attempt
flag, since both variants catch every query rejection alike.
-/

namespace ImageServer

/-! ## Identifier generator (`src/hasher.js`)

`generateChar` is `chars[Math.floor(Math.random() * chars.length)]`.
`Math.random()` ranges over `[0, 1)`, so the floored index always lies in
`[0, 61]`; the successive values produced by `Math.random` are embedded as
a stream of `Fin 62`, one per call. -/

def chars : String :=
  "abcdefghijklmnopqrstuvwxyzABCDEFGHIJKLMNOPQRSTUVWXYZ0123456789"

/-- `generateChar()`; the default `' '` is never used since any `r : Fin 62`
is a valid index into the 62-character alphabet. -/
def generateChar (r : Fin 62) : Char :=
  chars.data.getD r.1 ' '

/-- The `for` loop of `generateHash`: `hash += generateChar()` for
`i = 0 .. length-1`; `i` is the index of the next `Math.random` call and the
second argument is the number of iterations left. -/
def generateHashGo (stream : Nat → Fin 62) : Nat → Nat → String → String
  | _, 0, hash => hash
  | i, n + 1, hash => generateHashGo stream (i + 1) n (hash.push (generateChar (stream i)))

/-- `generateHash(length)` from `src/hasher.js`. -/
def generateHash (stream : Nat → Fin 62) (length : Nat) : String :=
  generateHashGo stream 0 length ""

/-! ## The uniqueness registry (table `images`)

A row is a pair of the primary key `fn` and the nullable `source` column. -/

abbrev Reg := List (String × Option String)

/-- Whether a row with primary key `fn` exists (what makes
`INSERT INTO images(fn) VALUES ($1)` hit a duplicate-key conflict). -/
def hasKey (reg : Reg) (fn : String) : Bool :=
  reg.any fun p => p.1 == fn

/-- Effect of a successful `INSERT INTO images(fn) VALUES ($1)`:
a new row with `source` NULL. -/
def claimRow (reg : Reg) (fn : String) : Reg :=
  (fn, none) :: reg

/-- Effect of `DELETE FROM images WHERE fn = $1`. -/
def eraseRows (reg : Reg) (fn : String) : Reg :=
  reg.filter fun p => p.1 != fn

/-- The row returned by `SELECT ... FROM images WHERE fn = $1`
(`fn` is the primary key, so at most one row matches). -/
def rowOf (reg : Reg) (fn : String) : Option (String × Option String) :=
  reg.find? fun p => p.1 == fn

/-- The `source` column of the matching row: `none` when the row is absent
or when its `source` is NULL (this is how `res?.[0]?.source ?? null` reads
the query result). -/
def sourceOf (reg : Reg) (fn : String) : Option String :=
  (rowOf reg fn).bind fun p => p.2

/-- Effect of `UPDATE images SET source = $1 WHERE fn = $2`:
rewrites the `source` of every row keyed `fn` (at most one), touching no
other row and creating none. -/
def updateRow (reg : Reg) (fn : String) (src : Option String) : Reg :=
  reg.map fun p => if p.1 == fn then (p.1, src) else p

/-! ## Allocation (`storage.filename` in both variants)

Control flow of the JS loop, common to both variants:

```
let filename = generateHash(6) + ext; let tries = 0;
while (tries < 10) {
  if (insert failed) { [variant 2: DELETE the row keyed filename]
                       filename = generateHash(6) + ext; }
  else break;
  ++tries;
}
if (tries === 10) cb(Error('Unable to generate unique filename.'));
else cb(null, filename);
```

Both variants catch every rejection of the `INSERT` alike
(`.then(() => false).catch(() => true)` resp. `.then(() => false, () => true)`),
so a registry-unreachable failure takes exactly the duplicate-key path.
`infra i` says whether the queries of attempt `i` hit an infrastructure
failure (in which case variant 2's cleanup `DELETE` of the same attempt also
fails and is swallowed by its `.catch`, leaving the registry unchanged).
`gen i` is the hash produced for attempt `i`. -/

inductive AllocResult
  | ok (fn : String)
  | exhausted
  | invalidExt (ext : String)
deriving DecidableEq, Repr

/-- The retry loop; the first `Nat` is the remaining tries (10 minus `tries`),
the second is the index of the current attempt.  Returns the callback result,
the final registry, and the number of `INSERT` attempts made.  `cleanup` is
variant 2's `DELETE FROM images WHERE fn = $1` executed after a failed
insert. -/
def allocGo (gen : Nat → String) (infra : Nat → Bool) (ext : String) (cleanup : Bool) :
    Nat → Nat → Reg → AllocResult × Reg × Nat
  | 0, i, reg => (.exhausted, reg, i)
  | fuel + 1, i, reg =>
    if infra i then
      allocGo gen infra ext cleanup fuel (i + 1) reg
    else if hasKey reg (gen i ++ ext) then
      allocGo gen infra ext cleanup fuel (i + 1)
        (if cleanup then eraseRows reg (gen i ++ ext) else reg)
    else
      (.ok (gen i ++ ext), claimRow reg (gen i ++ ext), i + 1)

/-- `storage.filename` of variant 1: no extension check, no cleanup delete. -/
def storageFilenameV1 (gen : Nat → String) (infra : Nat → Bool) (ext : String) (reg : Reg) :
    AllocResult × Reg × Nat :=
  allocGo gen infra ext false 10 0 reg

/-- The allow-list of variant 2:
`['.jpg', '.png', '.apng', '.gif'].includes(ext)`. -/
def allowedExts : List String := [".jpg", ".png", ".apng", ".gif"]

/-- `storage.filename` of variant 2: extension allow-list first, then the
retry loop with the cleanup `DELETE` after every failed insert. -/
def storageFilenameV2 (gen : Nat → String) (infra : Nat → Bool) (ext : String) (reg : Reg) :
    AllocResult × Reg × Nat :=
  if ext ∈ allowedExts then allocGo gen infra ext true 10 0 reg
  else (.invalidExt ext, reg, 0)

/-! ## Filesystem paths

Absolute paths are embedded as lists of segments (the store root
`FULL_PATH` resp. `path.join(__dirname, PUBLIC_DIR)` is such a list).
`path.join` on POSIX concatenates with `/` and normalises: an empty or `.`
segment disappears and `..` pops the previous segment. -/

/-- JavaScript's `str.split('/')`, modelled at the character level:
splitting an empty string gives `[""]`, and every `/` starts a new
segment. -/
def splitSlash : List Char → List (List Char)
  | [] => [[]]
  | c :: rest =>
    if c = '/' then [] :: splitSlash rest
    else (c :: (splitSlash rest).headD []) :: (splitSlash rest).tail

/-- `filename.split('/').pop()` — the final path segment of the
caller-supplied identifier (variant 2's sanitisation). -/
def lastSeg (s : String) : String :=
  String.mk ((splitSlash s.data).getLastD [])

/-- Joining one further segment (containing no `/`) onto an absolute path,
with `path.join` normalisation. -/
def joinSeg (root : List String) (seg : String) : List String :=
  if seg = "" ∨ seg = "." then root
  else if seg = ".." then root.dropLast
  else root ++ [seg]

/-- `path.join(root, p)` for a caller-supplied string `p` that may contain
`/` separators: split into segments and normalise left to right. -/
def joinPath (root : List String) (p : String) : List String :=
  ((splitSlash p.data).map String.mk).foldl joinSeg root

/-- A path lies inside the store root when the root's segments are an
initial segment of it. -/
abbrev withinRoot (root p : List String) : Prop :=
  p.take root.length = root

/-! ## The object store

The `images` directory, embedded as the list of filenames present in it.
`fs.unlinkSync` is modelled as succeeding whenever the file exists (OS-level
unlink errors on an existing plain file are out of scope). -/

abbrev FS := List String

/-- Outcome of variant 1's `/api/delete` handler: 200 OK, or the
400 `File does not exist.` early return. -/
inductive DelV1Result
  | allOk
  | fileMissing
deriving DecidableEq, Repr

/-- Variant 1's `/api/delete` loop body, per filename and in order:
fire `DELETE FROM images WHERE fn = $1` (not awaited, errors swallowed, but
its row-level effect happens), then `fs.existsSync`; a missing file returns
400 immediately, otherwise `fs.unlinkSync` and the next filename.  The
filename is joined to the store root unsanitised; for the plain identifiers
considered here the file key is the filename itself. -/
def apiDeleteV1 : List String → Reg → FS → DelV1Result × Reg × FS
  | [], reg, fs => (.allOk, reg, fs)
  | fn :: rest, reg, fs =>
    if fs.contains fn then apiDeleteV1 rest (eraseRows reg fn) (fs.erase fn)
    else (.fileMissing, eraseRows reg fn, fs)

/-- Variant 2's `/api/delete` loop: per filename, the file key is
`filename.split('/').pop()`; when the file exists it is unlinked, the
registry delete is fired with the raw filename, and the filename is pushed
onto `successful`; otherwise the filename is skipped entirely.  Returns the
`successful` list, the final registry and the final object store. -/
def apiDeleteV2Go : List String → Reg → FS → List String × Reg × FS
  | [], reg, fs => ([], reg, fs)
  | fn :: rest, reg, fs =>
    if fs.contains (lastSeg fn) then
      let r := apiDeleteV2Go rest (eraseRows reg fn) (fs.erase (lastSeg fn))
      (fn :: r.1, r.2)
    else
      apiDeleteV2Go rest reg fs

/-- Outcome of variant 2's `/api/delete` handler: 200 with the successful
list, or 400 `No files matching were found. None were deleted.` -/
inductive DelV2Result
  | okDeleted (fns : List String)
  | badRequest
deriving DecidableEq, Repr

/-- Variant 2's `/api/delete` handler on a validated body. -/
def apiDeleteV2 (fns : List String) (reg : Reg) (fs : FS) : DelV2Result × Reg × FS :=
  (if (apiDeleteV2Go fns reg fs).1.isEmpty then .badRequest
   else .okDeleted (apiDeleteV2Go fns reg fs).1,
   (apiDeleteV2Go fns reg fs).2)

/-! ## `/api/update` (the spec's `setSource`) -/

/-- Response of variant 1's `/api/update` handler: 400 when `filenames` is
absent or not an array, otherwise always 200 OK.  Variant 1 has no
not-found response path. -/
inductive UpdResponse
  | ok
  | badRequest
deriving DecidableEq, Repr

/-- The update loop of variant 1: for each `[i, filename]` run
`UPDATE images SET source = $1 WHERE fn = $2` with `$1 = sources[i]`
(reading past the end of `sources` gives `undefined`, i.e. SQL NULL). -/
def runUpdates (srcs : List String) : List String → Nat → Reg → Reg
  | [], _, reg => reg
  | fn :: rest, i, reg => runUpdates srcs rest (i + 1) (updateRow reg fn (srcs.get? i))

/-- Variant 1's `/api/update` handler; `filenames = none` models a body
whose `filenames` is absent or not an array. -/
def apiUpdateV1 (filenames : Option (List String)) (srcs : List String) (reg : Reg) :
    UpdResponse × Reg :=
  match filenames with
  | none => (.badRequest, reg)
  | some fns => (.ok, runUpdates srcs fns 0 reg)

/-- What variant 2's `/api/update` handler does with a validated body:
send its 200 message (having pushed one entry per processed filename),
throw a `TypeError` out of the handler, or answer 400. -/
inductive UpdV2Result
  | okMessage (pushed : List String)
  | thrownTypeError
  | badRequest
deriving DecidableEq, Repr

/-- The update loop of variant 2: `pool.query` with `UPDATE ... RETURNING *`
resolves to a pg `Result` object, not a rows array; `Result` has no `.at`
method and the optional chain in `res?.at(0)?.source ?? 'null'` only guards
`res` itself being nullish, so right after the first *successful* query —
and after that query's registry effect, since it was awaited (a zero-row
`UPDATE` on an absent id is still a successful query) — the expression
throws `TypeError: res.at is not a function` and the 200 response is never
reached.  Only a *failed* query (whose `.catch` leaves `res` undefined)
survives the expression: it pushes the string `null` and continues.
`infra i` says whether the `i`-th query fails. -/
def apiUpdateV2Go (srcs : List String) (infra : Nat → Bool) :
    List String → Nat → List String → Reg → UpdV2Result × Reg
  | [], _, pushed, reg => (.okMessage pushed, reg)
  | fn :: rest, i, pushed, reg =>
    if infra i then apiUpdateV2Go srcs infra rest (i + 1) (pushed ++ ["null"]) reg
    else (.thrownTypeError, updateRow reg fn (srcs.get? i))

/-- Variant 2's `/api/update` handler; `filenames = none` models a body
whose `filenames` is absent or not an array. -/
def apiUpdateV2 (filenames : Option (List String)) (srcs : List String) (infra : Nat → Bool)
    (reg : Reg) : UpdV2Result × Reg :=
  match filenames with
  | none => (.badRequest, reg)
  | some fns => apiUpdateV2Go srcs infra fns 0 [] reg

/-! ## `/api/sources` (the spec's `getSources`)

Variant 1 reads each per-filename `SELECT` through its `query` wrapper,
which unwraps `.then(res => res.rows)`, and pushes
`res?.[0]?.source ?? null` — a rows array read, which is well defined.
Variant 2 instead calls `pool.query` directly and reads `res?.at(0)`,
which is not: see `apiSourcesV2Go`. -/

/-- The accumulation loop of variant 1's `/api/sources`:
`sources.push(res?.[0]?.source ?? null)` per filename, in order. -/
def apiSourcesV1Go (reg : Reg) : List String → List (Option String) → List (Option String)
  | [], acc => acc
  | fn :: rest, acc => apiSourcesV1Go reg rest (acc ++ [sourceOf reg fn])

/-- Variant 1's `/api/sources` handler's `sources` response array. -/
def apiSourcesV1 (reg : Reg) (fns : List String) : List (Option String) :=
  apiSourcesV1Go reg fns []

/-- What variant 2's `/api/sources` handler does with a validated body:
send the 200 `sources` array, or throw a `TypeError` out of the handler. -/
inductive SourcesV2Result
  | okSources (srcs : List (Option String))
  | thrownTypeError
deriving DecidableEq, Repr

/-- The accumulation loop of variant 2's `/api/sources`: `pool.query`
resolves to a pg `Result` object, not a rows array; `Result` has no `.at`
method and the optional chain in `res?.at(0)?.source ?? null` only guards
`res` itself being nullish, so on every *successful* query — whether or
not a row matched — the expression throws
`TypeError: res.at is not a function` and the handler never sends its
`sources` array.  Only a *failed* query (whose `.catch` leaves `res`
undefined) survives the expression and pushes `null`.  `infra i` says
whether the `i`-th query fails; the registry rows are never read, because
the throw happens before any row access. -/
def apiSourcesV2Go (infra : Nat → Bool) :
    List String → Nat → List (Option String) → SourcesV2Result
  | [], _, acc => .okSources acc
  | _ :: rest, i, acc =>
    if infra i then apiSourcesV2Go infra rest (i + 1) (acc ++ [none])
    else .thrownTypeError

/-- Variant 2's `/api/sources` handler on a validated body. -/
def apiSourcesV2 (infra : Nat → Bool) (fns : List String) : SourcesV2Result :=
  apiSourcesV2Go infra fns 0 []

/-! ## Authentication middleware (variant 2) -/

/-- What the middleware does with a request: call `next()`, send the
`404.html` error page, or throw out of the middleware (leaving the
response to Express's error handling, not to the middleware itself). -/
inductive AuthOutcome
  | proceed
  | errorPage
  | thrown
deriving DecidableEq, Repr

/-- Variant 2's `authenticate`: `req.headers.authorization` is `none` when
the request carries no Authorization header, and JavaScript evaluation of
`undefined.startsWith('Bearer ')` throws a `TypeError` before any response
is produced.  `decode` stands for
`Buffer.from(encodedToken, 'base64').toString('utf-8')`. -/
def authenticateV2 (decode : String → String) (secret : String) (auth : Option String) :
    AuthOutcome :=
  match auth with
  | none => .thrown
  | some a =>
    if a.startsWith "Bearer " then
      if decode ((a.splitOn " ").getD 1 "") = secret then .proceed else .errorPage
    else .errorPage

/-! ## Supporting lemmas -/

/-- When every attempt hits an infrastructure failure, the loop runs out of
fuel with the registry untouched, having made one `INSERT` attempt per unit
of fuel. -/
theorem allocGo_infra_all (gen : Nat → String) (infra : Nat → Bool) (ext : String)
    (cleanup : Bool) (h : ∀ i, infra i = true) (fuel : Nat) :
    ∀ i reg, allocGo gen infra ext cleanup fuel i reg = (.exhausted, reg, i + fuel) := by
  induction fuel with
  | zero => intro i reg; simp [allocGo]
  | succ n ih =>
    intro i reg
    have e : i + (n + 1) = (i + 1) + n := by omega
    simp only [allocGo, h i, if_true]
    rw [ih (i + 1) reg, e]

/-- A ten-row registry pre-populated with attributed records for the ten
candidates of the C7 scenario. -/
def tenRows : Reg :=
  [("h0.jpg", some "s0"), ("h1.jpg", some "s1"), ("h2.jpg", some "s2"),
   ("h3.jpg", some "s3"), ("h4.jpg", some "s4"), ("h5.jpg", some "s5"),
   ("h6.jpg", some "s6"), ("h7.jpg", some "s7"), ("h8.jpg", some "s8"),
   ("h9.jpg", some "s9")]

/-- A hash stream whose attempt `i` produces the key of the `i`-th row of
`tenRows`, forcing ten consecutive duplicate-key conflicts. -/
def tenGen : Nat → String :=
  fun i => ["h0", "h1", "h2", "h3", "h4", "h5", "h6", "h7", "h8", "h9"].getD i "zz"

/-! ## Claims about allocation -/

/-- C1: a duplicate-key conflict is expected to leave the registry
unchanged, in particular the pre-existing record and its attribution.
Variant 2 instead executes `DELETE FROM images WHERE fn = $1` after the
failed insert; since the conflicting `INSERT` inserted nothing, the delete
removes the *pre-existing* record together with its attribution (the code's
own comment says it deletes "what we just inserted").  At an input where
the first candidate collides with an attributed record, variant 2 erases
that record, while variant 1 (which has no cleanup delete) leaves it
untouched exactly as the claim states. -/
theorem c1_duplicate_claim_deletes_preexisting :
    rowOf [("abc123.jpg", some "https://example.com/original")] "abc123.jpg" =
      some ("abc123.jpg", some "https://example.com/original") ∧
    storageFilenameV2 (fun i => if i = 0 then "abc123" else "zzzzzz") (fun _ => false) ".jpg"
        [("abc123.jpg", some "https://example.com/original")] =
      (.ok "zzzzzz.jpg", [("zzzzzz.jpg", none)], 2) ∧
    rowOf [("zzzzzz.jpg", none)] "abc123.jpg" = none ∧
    storageFilenameV1 (fun i => if i = 0 then "abc123" else "zzzzzz") (fun _ => false) ".jpg"
        [("abc123.jpg", some "https://example.com/original")] =
      (.ok "zzzzzz.jpg",
       [("zzzzzz.jpg", none), ("abc123.jpg", some "https://example.com/original")], 2) :=
  ⟨rfl, rfl, rfl, rfl⟩

/-- C2 counterexample: with the registry unreachable on every attempt
(every query rejects), both variants consume the failure as if it were a
duplicate-key collision and retry: ten `INSERT` attempts are made and the
result is the generic exhaustion error, not an immediately surfaced
infrastructure error (no such error class even exists in the code). -/
theorem c2_infra_retried_counterexample :
    storageFilenameV2 (fun _ => "aaaaaa") (fun _ => true) ".jpg" [] = (.exhausted, [], 10) ∧
    storageFilenameV1 (fun _ => "aaaaaa") (fun _ => true) ".jpg" [] = (.exhausted, [], 10) :=
  ⟨rfl, rfl⟩

/-- C2 amended: both variants catch every claim failure alike, so an
infrastructure failure is consumed exactly like a duplicate-key collision
and retried; when the registry is unreachable throughout, `allocate` makes
all ten attempts and fails with the same exhaustion error
(`Unable to generate unique filename.`), leaving the registry unchanged; no
`RegistryUnavailable`-class error is ever surfaced. -/
theorem c2_amended_infra_consumed_as_exhaustion (gen : Nat → String) (infra : Nat → Bool)
    (ext : String) (reg : Reg) (hext : ext ∈ allowedExts) (hinf : ∀ i, infra i = true) :
    storageFilenameV2 gen infra ext reg = (.exhausted, reg, 10) ∧
    storageFilenameV1 gen infra ext reg = (.exhausted, reg, 10) := by
  constructor
  · simp [storageFilenameV2, hext, allocGo_infra_all gen infra ext true hinf 10 0 reg]
  · simp [storageFilenameV1, allocGo_infra_all gen infra ext false hinf 10 0 reg]

/-- Witness for the amended C2 at a concrete input. -/
theorem c2_amended_witness :
    storageFilenameV2 (fun _ => "aaaaaa") (fun _ => true) ".jpg" [("k.jpg", some "s")] =
      (.exhausted, [("k.jpg", some "s")], 10) ∧
    storageFilenameV1 (fun _ => "aaaaaa") (fun _ => true) ".jpg" [("k.jpg", some "s")] =
      (.exhausted, [("k.jpg", some "s")], 10) :=
  c2_amended_infra_consumed_as_exhaustion _ _ _ _ (by decide) (fun _ => rfl)

/-- C6 counterexample: variant 1's `storage.filename` performs no extension
validation at all: with the non-allow-listed extension `.svg` it does not
fail with an invalid-extension error but claims the registry on its first
attempt and succeeds, inserting a new record. -/
theorem c6_variant1_no_validation_counterexample :
    storageFilenameV1 (fun _ => "aaaaaa") (fun _ => false) ".svg" [] =
      (.ok "aaaaaa.svg", [("aaaaaa.svg", none)], 1) :=
  rfl

/-- C6 amended: variant 2 validates the extension against
`['.jpg', '.png', '.apng', '.gif']` and fails immediately with the
invalid-file-type error, making zero `INSERT` attempts and leaving the
registry untouched; variant 1 has no such check and proceeds to claim the
registry regardless of the extension. -/
theorem c6_amended_variant2_rejects_invalid_ext (gen : Nat → String) (infra : Nat → Bool)
    (ext : String) (reg : Reg) (h : ext ∉ allowedExts) :
    storageFilenameV2 gen infra ext reg = (.invalidExt ext, reg, 0) := by
  simp [storageFilenameV2, h]

/-- Witness for the amended C6 at the extension `.svg`. -/
theorem c6_amended_witness :
    storageFilenameV2 (fun _ => "aaaaaa") (fun _ => false) ".svg" [] =
      (.invalidExt ".svg", [], 0) :=
  c6_amended_variant2_rejects_invalid_ext _ _ _ _ (by decide)

/-- C7: with the registry pre-populated so that all ten candidates hit
duplicate-key conflicts, both variants make exactly ten `INSERT` attempts
and return the exhaustion error, as the claim states; but variant 2's
cleanup `DELETE` after each failed insert removes all ten pre-existing
attributed records, so its run ends with an emptied registry — a large net
registry mutation — while variant 1 indeed leaves the registry exactly as
it was. -/
theorem c7_exhaustion_destroys_preexisting_rows :
    storageFilenameV2 tenGen (fun _ => false) ".jpg" tenRows = (.exhausted, [], 10) ∧
    storageFilenameV1 tenGen (fun _ => false) ".jpg" tenRows = (.exhausted, tenRows, 10) :=
  ⟨rfl, rfl⟩

/-! ## Claims about delete, update and path handling -/

/-- C3 counterexample: with a registry record present for `a.jpg` but the
file already missing from the object store, variant 2's delete skips the
id entirely — the registry record survives and the request is answered
with the 400 `No files matching were found` response instead of success —
while variant 1 does remove the registry record but answers with the 400
`File does not exist.` failure rather than reporting success. -/
theorem c3_missing_file_counterexample :
    apiDeleteV2 ["a.jpg"] [("a.jpg", some "src")] [] =
      (.badRequest, [("a.jpg", some "src")], []) ∧
    apiDeleteV1 ["a.jpg"] [("a.jpg", some "src")] [] = (.fileMissing, [], []) :=
  ⟨rfl, rfl⟩

/-- C3 amended: for an id whose registry record exists but whose
object-store file is missing, variant 2 leaves the registry record in
place and does not count the id as successful (a request consisting only
of such ids gets the 400 response with registry and store unchanged);
variant 1 removes the registry record but reports the 400
`File does not exist.` failure for the request. -/
theorem c3_amended_missing_file_behavior (reg : Reg) (fn : String) (fs : FS)
    (_hrow : (rowOf reg fn).isSome = true)
    (h2 : lastSeg fn ∉ fs) (h1 : fn ∉ fs) :
    apiDeleteV2 [fn] reg fs = (.badRequest, reg, fs) ∧
    apiDeleteV1 [fn] reg fs = (.fileMissing, eraseRows reg fn, fs) := by
  constructor
  · simp [apiDeleteV2, apiDeleteV2Go, h2]
  · simp [apiDeleteV1, h1]

/-- Witness for the amended C3 at a concrete input. -/
theorem c3_amended_witness :
    apiDeleteV2 ["b.jpg"] [("b.jpg", some "u")] ["other.jpg"] =
      (.badRequest, [("b.jpg", some "u")], ["other.jpg"]) ∧
    apiDeleteV1 ["b.jpg"] [("b.jpg", some "u")] ["other.jpg"] =
      (.fileMissing, [], ["other.jpg"]) :=
  c3_amended_missing_file_behavior _ _ _ (by decide) (by decide) (by decide)

/-- An `UPDATE` whose `WHERE fn = $1` matches no row leaves the registry
exactly as it was. -/
theorem updateRow_absent (reg : Reg) (fn : String) (src : Option String)
    (h : rowOf reg fn = none) : updateRow reg fn src = reg := by
  simp only [rowOf, List.find?_eq_none] at h
  induction reg with
  | nil => rfl
  | cons hd rest ih =>
    simp only [updateRow, List.map_cons]
    rw [if_neg (h hd (List.mem_cons_self hd rest))]
    have hrest := ih fun p hp => h p (List.mem_cons_of_mem hd hp)
    simp only [updateRow] at hrest
    rw [hrest]

/-- C4 counterexample: updating the source of an id absent from the
registry never fails with a not-found error in either variant: variant 1
answers 200 OK with the registry still empty (no record created, and
`UpdResponse` has no not-found constructor at all), while variant 2, with
the registry reachable, throws a `TypeError` at `res?.at(0)` right after
its first (zero-row) `UPDATE` and never responds at all. -/
theorem c4_silent_noop_counterexample :
    apiUpdateV1 (some ["x"]) ["s"] [] = (.ok, []) ∧
    apiUpdateV2 (some ["x"]) ["s"] (fun _ => false) [] = (.thrownTypeError, []) ∧
    rowOf [] "x" = none :=
  ⟨rfl, rfl, rfl⟩

/-- C4 amended: `setSource` on an id absent from the registry never fails
distinctly with `NotFound`, and it creates no record.  In variant 1 it is
a silent no-op: the `UPDATE` matches no row, the registry is unchanged,
and the handler reports success (200), so a caller cannot distinguish a
successful update from an update whose target did not exist.  Variant 2
runs the same no-row `UPDATE` (registry unchanged, no record created) but
then throws a `TypeError` at `res?.at(0)` — `pool.query` resolves to a pg
`Result`, which has no `.at` method — so its 200 message is never sent
either. -/
theorem c4_amended_silent_noop (reg : Reg) (fn : String) (srcs : List String)
    (infra : Nat → Bool) (h : rowOf reg fn = none) (hreach : infra 0 = false) :
    apiUpdateV1 (some [fn]) srcs reg = (.ok, reg) ∧
    apiUpdateV2 (some [fn]) srcs infra reg = (.thrownTypeError, reg) := by
  constructor
  · simp [apiUpdateV1, runUpdates, updateRow_absent reg fn _ h]
  · simp [apiUpdateV2, apiUpdateV2Go, hreach, updateRow_absent reg fn _ h]

/-- Witness for the amended C4 at a concrete input. -/
theorem c4_amended_witness :
    apiUpdateV1 (some ["x"]) ["new-source"] [("a.jpg", some "s")] =
      (.ok, [("a.jpg", some "s")]) ∧
    apiUpdateV2 (some ["x"]) ["new-source"] (fun _ => false) [("a.jpg", some "s")] =
      (.thrownTypeError, [("a.jpg", some "s")]) :=
  c4_amended_silent_noop _ _ _ _ (by decide) rfl

/-- C5 counterexample: no caller-supplied value is ever rejected; variant 2
reduces `a/..` to its final segment `..`, and joining that to the store
root yields the root's parent directory — outside the store root; variant 1
joins the raw identifier, so `../404.html` also escapes the root. -/
theorem c5_traversal_counterexample :
    lastSeg "a/.." = ".." ∧
    ¬ withinRoot ["srv", "images"] (joinSeg ["srv", "images"] (lastSeg "a/..")) ∧
    ¬ withinRoot ["srv", "images"] (joinPath ["srv", "images"] "../404.html") := by
  refine ⟨rfl, ?_, ?_⟩ <;> decide

/-- C5 amended: variant 2 sanitises a caller-supplied identifier to its
final `/`-separated segment before joining it to the store root, but never
rejects values containing separators; the joined path stays inside the
store root for every identifier whose final segment is not `..` (a final
segment of `..` still escapes, and variant 1 performs no sanitisation at
all). -/
theorem c5_amended_sanitized_segment_stays_within_root (root : List String) (fn : String)
    (h : lastSeg fn ≠ "..") :
    withinRoot root (joinSeg root (lastSeg fn)) := by
  by_cases h0 : lastSeg fn = "" ∨ lastSeg fn = "."
  · rcases h0 with h0 | h0 <;> simp [joinSeg, h0, withinRoot]
  · simp only [joinSeg]
    rw [if_neg h0, if_neg h]
    exact List.take_left root [lastSeg fn]

/-- Witness for the amended C5 at a concrete input. -/
theorem c5_amended_witness :
    withinRoot ["srv", "images"] (joinSeg ["srv", "images"] (lastSeg "sub/x.jpg")) :=
  c5_amended_sanitized_segment_stays_within_root _ _ (by decide)

/-! ## Claims about batch source lookup, the hash generator and auth -/

/-- Variant 1's `/api/sources` accumulation loop appends, in order, one
looked-up source per filename. -/
theorem apiSourcesV1Go_eq (reg : Reg) (fns : List String) :
    ∀ acc, apiSourcesV1Go reg fns acc = acc ++ fns.map (sourceOf reg) := by
  induction fns with
  | nil => intro acc; simp [apiSourcesV1Go]
  | cons fn rest ih => intro acc; simp [apiSourcesV1Go, ih]

/-- Variant 1's `/api/sources` is an order-preserving batch lookup: one
entry per requested filename, the `i`-th entry being the `source` column
of the `i`-th filename's row — `none` both when the row is absent and when
its stored source is NULL — never an error. -/
theorem apiSourcesV1_order_preserving (reg : Reg) (fns : List String) :
    (apiSourcesV1 reg fns).length = fns.length ∧
    ∀ i : Nat, (apiSourcesV1 reg fns)[i]? = (fns[i]?).map (sourceOf reg) := by
  constructor
  · simp [apiSourcesV1, apiSourcesV1Go_eq]
  · intro i
    simp [apiSourcesV1, apiSourcesV1Go_eq, List.getElem?_map]

/-- C8 counterexample: with the registry reachable, variant 2's
`/api/sources` on the one-element list `["a.jpg"]` does not return a
sources list at all — the first successful `SELECT` resolves to a pg
`Result`, `res?.at(0)` throws `TypeError: res.at is not a function`, and
the handler dies — so it returns neither `[some "s"]` nor `[none]`;
variant 1 on the same request behaves exactly as the claim states. -/
theorem c8_variant2_throws_counterexample :
    apiSourcesV2 (fun _ => false) ["a.jpg"] = .thrownTypeError ∧
    apiSourcesV2 (fun _ => false) ["a.jpg"] ≠ .okSources [some "s"] ∧
    apiSourcesV2 (fun _ => false) ["a.jpg"] ≠ .okSources [none] ∧
    apiSourcesV1 [("a.jpg", some "s")] ["a.jpg"] = [some "s"] :=
  ⟨rfl, by decide, by decide, rfl⟩

/-- C8 amended: variant 1's `getSources` is an order-preserving batch
lookup returning one entry per requested id, with `none` for absent ids
and NULL sources, never an error; variant 2's handler instead reads each
query result with `res?.at(0)` on a pg `Result`, which has no `.at`
method, so with the registry reachable every non-empty id list makes the
handler throw a `TypeError` and return no list (only a *failed* query
would push `null` and continue). -/
theorem c8_amended_split_variants (reg : Reg) (fns : List String) (infra : Nat → Bool)
    (hne : fns ≠ []) (hreach : ∀ i, infra i = false) :
    ((apiSourcesV1 reg fns).length = fns.length ∧
      ∀ i : Nat, (apiSourcesV1 reg fns)[i]? = (fns[i]?).map (sourceOf reg)) ∧
    apiSourcesV2 infra fns = .thrownTypeError := by
  refine ⟨apiSourcesV1_order_preserving reg fns, ?_⟩
  cases fns with
  | nil => exact absurd rfl hne
  | cons fn rest => simp [apiSourcesV2, apiSourcesV2Go, hreach 0]

/-- Witness for the amended C8 at a concrete input: a two-id batch with
one present and one missing id. -/
theorem c8_amended_witness :
    (apiSourcesV1 [("a.jpg", some "s")] ["a.jpg", "zz"])[1]? = some none ∧
    apiSourcesV2 (fun _ => false) ["a.jpg", "zz"] = .thrownTypeError :=
  ⟨((c8_amended_split_variants [("a.jpg", some "s")] ["a.jpg", "zz"] (fun _ => false)
      (by decide) (fun _ => rfl)).1.2 1).trans rfl,
   (c8_amended_split_variants [("a.jpg", some "s")] ["a.jpg", "zz"] (fun _ => false)
      (by decide) (fun _ => rfl)).2⟩

/-- `(s.push c).data` unfolds to appending the pushed character. -/
theorem push_data (s : String) (c : Char) : (s.push c).data = s.data ++ [c] :=
  rfl

/-- Every character the generator can produce lies in the 62-character
alphabet. -/
theorem generateChar_mem : ∀ r : Fin 62, generateChar r ∈ chars.data := by
  decide

/-- Each loop iteration adds one character to the accumulated hash. -/
theorem generateHashGo_length (stream : Nat → Fin 62) :
    ∀ n i acc, (generateHashGo stream i n acc).length = acc.length + n := by
  intro n
  induction n with
  | zero => intro i acc; simp [generateHashGo]
  | succ m ih =>
    intro i acc
    have hlen : (acc.push (generateChar (stream i))).length = acc.length + 1 := by
      show (acc.data ++ [generateChar (stream i)]).length = acc.data.length + 1
      simp
    rw [generateHashGo, ih (i + 1) (acc.push (generateChar (stream i))), hlen]
    omega

/-- Every character of the accumulated hash comes from the accumulator or
from the alphabet. -/
theorem generateHashGo_mem (stream : Nat → Fin 62) :
    ∀ n i acc c, c ∈ (generateHashGo stream i n acc).data →
      c ∈ acc.data ∨ c ∈ chars.data := by
  intro n
  induction n with
  | zero => intro i acc c hc; exact Or.inl hc
  | succ m ih =>
    intro i acc c hc
    rw [generateHashGo] at hc
    rcases ih (i + 1) (acc.push (generateChar (stream i))) c hc with h | h
    · rw [push_data] at h
      rcases List.mem_append.1 h with h | h
      · exact Or.inl h
      · rcases List.mem_singleton.1 h with rfl
        exact Or.inr (generateChar_mem (stream i))
    · exact Or.inr h

/-- C9: for every length `n` and every stream of `Math.random` draws,
`generateHash` returns a string of exactly `n` characters, each from the
62-character alphanumeric alphabet; the embedding is a total function with
no failure modes. -/
theorem c9_generateHash_length_alphabet (stream : Nat → Fin 62) (n : Nat) :
    (generateHash stream n).length = n ∧
    ∀ c ∈ (generateHash stream n).data, c ∈ chars.data := by
  constructor
  · simpa [generateHash] using generateHashGo_length stream n 0 ""
  · intro c hc
    rcases generateHashGo_mem stream n 0 "" c hc with h | h
    · simp at h
    · exact h

/-- Witness for C9 at a concrete stream, length and character. -/
theorem c9_witness :
    (generateHash (fun _ => (0 : Fin 62)) 3).length = 3 ∧ 'a' ∈ chars.data :=
  ⟨(c9_generateHash_length_alphabet (fun _ => (0 : Fin 62)) 3).1,
   (c9_generateHash_length_alphabet (fun _ => (0 : Fin 62)) 3).2 'a' (by decide)⟩

/-- C10: variant 2's `authenticate` dereferences
`req.headers.authorization` unconditionally; on a request carrying no
Authorization header the check throws a `TypeError`
(`startsWith` applied to `undefined`) instead of sending the error page,
so the middleware itself never cleanly rejects such a request. -/
theorem c10_missing_auth_header_throws (decode : String → String) (secret : String) :
    authenticateV2 decode secret none = .thrown ∧
    authenticateV2 decode secret none ≠ .errorPage ∧
    authenticateV2 decode secret none ≠ .proceed := by
  refine ⟨rfl, ?_, ?_⟩ <;> intro h <;> exact AuthOutcome.noConfusion h

end ImageServer
